import Mathlib

/-!
Verification of the Halshare (TM2101-SR) skin-temperature BLE reader.

Shallow embedding of the core logic shared by `halshare_reader.py` and
`halshare_app.py` (the two scripts contain byte-identical copies of the
`HalshareReader` class):

* `calculate_temperature`  — `HalshareReader.calculate_temperature`
  (halshare_reader.py:41-49).  Python floats on this domain are exact
  dyadic rationals (4 fractional bits, magnitude < 2^9), so `ℚ` models
  the float arithmetic exactly.
* `notification_handler`   — the notification callback
  (halshare_reader.py:65-97): detects the `EN` completion frame, parses
  even-length frames into (interval, temperature) sample pairs, ignores
  everything else.
* `get_temperature_data`   — the acquisition loop
  (halshare_reader.py:117-151), modelled as a fold of the handler over
  the frames delivered while subscribed.
* `generate_csv_data`      — the timeline reconstruction
  (halshare_reader.py:153-186).  `datetime` values are modelled as `ℤ`
  in minutes; `timedelta(minutes=k)` subtraction is integer subtraction.
* `main_actions`           — the teardown-relevant control flow of
  `get_temperature_data` plus `main`'s `try/finally`
  (halshare_reader.py:214-272), as an action trace per fault scenario.
-/

/-- Temperature conversion constant `CELSIUS_PER_LSB = 0.0625`
(halshare_reader.py:30). -/
def CELSIUS_PER_LSB : ℚ := 0.0625

/-- Temperature conversion constant `BASE_TEMPERATURE = 25.0`
(halshare_reader.py:29). -/
def BASE_TEMPERATURE : ℚ := 25.0

/-- `HalshareReader.calculate_temperature` (halshare_reader.py:41-49):
`unsigned_value = byte_value if byte_value >= 0 else byte_value + 256`,
then `unsigned_value * CELSIUS_PER_LSB + BASE_TEMPERATURE`.  The input is
an arbitrary integer, as in the Python source. -/
def calculate_temperature (byte_value : ℤ) : ℚ :=
  let unsigned_value : ℤ := if byte_value ≥ 0 then byte_value else byte_value + 256
  (unsigned_value : ℚ) * CELSIUS_PER_LSB + BASE_TEMPERATURE

/-- One decoded sample, as appended by the notification handler
(halshare_reader.py:91-95). -/
structure Sample where
  interval : ℕ
  temperature : ℚ
  raw_temp_byte : ℕ
deriving DecidableEq, Repr

/-- The mutable fields of `HalshareReader` touched by the notification
handler (halshare_reader.py:37-39).  `data_acquisition_time` is `none`
until a completion frame is seen (Python `None`). -/
structure ReaderState where
  data_buffer : List Sample
  measurement_complete : Bool
  data_acquisition_time : Option ℤ
deriving DecidableEq, Repr

/-- Initial reader state (halshare_reader.py:37-39). -/
def initState : ReaderState := ⟨[], false, none⟩

/-- `data.startswith(b'EN')` (halshare_reader.py:74): the first two bytes
are ASCII `E` (0x45 = 69) and `N` (0x4E = 78). -/
def startsWithEN : List ℕ → Bool
  | a :: b :: _ => a == 69 && b == 78
  | _ => false

/-- The pair-extraction loop of the handler (halshare_reader.py:84-95):
`for i in range(0, len(data), 2)` reading `data[i]` as the interval byte
and `data[i+1]` as the temperature byte.  The loop is only entered on
even-length data, where this recursion consumes exactly the same pairs. -/
def parsePairs : List ℕ → List Sample
  | interval_byte :: temp_byte :: rest =>
      ⟨interval_byte, calculate_temperature temp_byte, temp_byte⟩ :: parsePairs rest
  | _ => []

/-- The notification callback (halshare_reader.py:65-97), with the current
wall-clock time `now` passed explicitly.  A frame starting with `EN` sets
the completion flag and records `now`; a frame with `len(data) >= 2 and
len(data) % 2 == 0` appends its parsed pairs to the buffer; any other
frame leaves the state unchanged. -/
def notification_handler (s : ReaderState) (now : ℤ) (data : List ℕ) : ReaderState :=
  if startsWithEN data then
    { s with measurement_complete := true, data_acquisition_time := some now }
  else if 2 ≤ data.length ∧ data.length % 2 = 0 then
    { s with data_buffer := s.data_buffer ++ parsePairs data }
  else
    s

/-- Outcome of one acquisition: the wait loop either observes the
completion flag or breaks on timeout (halshare_reader.py:136-142). -/
inductive Outcome where
  | completed
  | timedOut
deriving DecidableEq, Repr

/-- What `get_temperature_data` leaves behind: the returned buffer
(halshare_reader.py:151), the recorded completion time, the outcome, and
whether `stop_notify` ran (halshare_reader.py:145, executed on both the
completion and the timeout exit of the wait loop). -/
structure SessionResult where
  buffer : List Sample
  completion_time : Option ℤ
  outcome : Outcome
  unsubscribed : Bool
deriving DecidableEq, Repr

/-- `HalshareReader.get_temperature_data` (halshare_reader.py:117-151) on
the frames delivered while subscribed, each tagged with its wall-clock
arrival time: the handler is applied to each frame in arrival order; the
wait loop exits with `completed` when the completion flag is set and
breaks with `timedOut` otherwise; `stop_notify` then runs unconditionally
and `self.data_buffer` is returned. -/
def get_temperature_data (events : List (ℤ × List ℕ)) : SessionResult :=
  let s := events.foldl (fun st e => notification_handler st e.1 e.2) initState
  { buffer := s.data_buffer
    completion_time := s.data_acquisition_time
    outcome := if s.measurement_complete then .completed else .timedOut
    unsubscribed := true }

/-- One row built by `generate_csv_data` (halshare_reader.py:171-176).
`datetime` is modelled in integer minutes; the source formats it with
`strftime` but performs all arithmetic via `timedelta(minutes=...)`. -/
structure CsvRow where
  halshareWearerName : String
  halshareId : String
  datetime : ℤ
  temperature : ℚ
deriving DecidableEq, Repr

/-- The backward walk of `generate_csv_data` (halshare_reader.py:165-181)
expressed on the reversed buffer: each sample is emitted at the current
time, then the time is decremented by that sample's interval for the next
(older) sample.  The `if i > 0` guard of the source only skips the final,
unused decrement, so the emitted rows coincide. -/
def buildRows (wearer addr : String) : ℤ → List Sample → List CsvRow
  | _, [] => []
  | t, d :: rest =>
      ⟨wearer, addr, t, d.temperature⟩ :: buildRows wearer addr (t - d.interval) rest

/-- `HalshareReader.generate_csv_data` (halshare_reader.py:153-186):
returns `[]` when the buffer is empty or no acquisition time is recorded;
otherwise walks the buffer in reverse assigning timestamps backward from
the acquisition time, and reverses the rows back to chronological order. -/
def generate_csv_data (wearer addr : String) (s : ReaderState) : List CsvRow :=
  match s.data_acquisition_time with
  | none => []
  | some t =>
      if s.data_buffer = [] then []
      else (buildRows wearer addr t s.data_buffer.reverse).reverse

/-- Sum of the interval fields of a sample list, in minutes. -/
def intervalSum (l : List Sample) : ℤ :=
  (l.map fun d => (d.interval : ℤ)).sum

/-- Fault scenarios for one run of `main` (halshare_reader.py:214-272)
around `get_temperature_data`: a clean completion, a timeout, or a
transport error raised by `start_notify` (halshare_reader.py:100), by
`write_gatt_char` (halshare_reader.py:114), or inside the wait loop
(halshare_reader.py:136-142). -/
inductive Fault where
  | completed
  | timedOut
  | subscribeError
  | writeError
  | waitLoopError
deriving DecidableEq, Repr

/-- Teardown-relevant calls made during a session. -/
inductive SessionAction where
  | startNotify
  | writeCommand
  | stopNotify
  | disconnect
deriving DecidableEq, Repr

/-- Action trace of `get_temperature_data` (halshare_reader.py:117-151)
per fault scenario, with a flag recording whether an exception propagates
to the caller.  The body runs `start_notify`, then `write_gatt_char`,
then the wait loop, then `stop_notify`; an exception raised at any of the
first three points propagates immediately, skipping everything after it —
in particular `stop_notify` (halshare_reader.py:145) is skipped on every
error path. -/
def get_temperature_data_actions : Fault → List SessionAction × Bool
  | .completed => ([.startNotify, .writeCommand, .stopNotify], false)
  | .timedOut => ([.startNotify, .writeCommand, .stopNotify], false)
  | .subscribeError => ([.startNotify], true)
  | .writeError => ([.startNotify, .writeCommand], true)
  | .waitLoopError => ([.startNotify, .writeCommand], true)

/-- Action trace of `main` (halshare_reader.py:214-272): the acquisition
runs inside `try`, and the `finally` block (halshare_reader.py:271-272)
calls `reader.disconnect()` on every exit path, exceptional or not. -/
def main_actions (f : Fault) : List SessionAction :=
  (get_temperature_data_actions f).1 ++ [.disconnect]

/-- Samples one frame contributes to the buffer under the handler
(halshare_reader.py:74-95): none for a completion frame, the parsed pairs
for a valid even-length data frame, none otherwise. -/
def frame_samples (data : List ℕ) : List Sample :=
  if startsWithEN data then []
  else if 2 ≤ data.length ∧ data.length % 2 = 0 then parsePairs data
  else []

/-- A concrete three-sample buffer (intervals 5, 10, 7 minutes) used to
instantiate the reconstruction theorems. -/
def demoBuf : List Sample :=
  [⟨5, 27.5, 40⟩, ⟨10, 28, 48⟩, ⟨7, 30, 80⟩]

/-! ### Helper lemmas -/

theorem intervalSum_cons (d : Sample) (l : List Sample) :
    intervalSum (d :: l) = (d.interval : ℤ) + intervalSum l := by
  simp [intervalSum]

theorem intervalSum_reverse (l : List Sample) :
    intervalSum l.reverse = intervalSum l := by
  simp [intervalSum, List.sum_reverse]

theorem buildRows_length (w a : String) : ∀ (t : ℤ) (l : List Sample),
    (buildRows w a t l).length = l.length
  | _, [] => rfl
  | t, d :: rest => by
      simp [buildRows, buildRows_length w a (t - d.interval) rest]

theorem buildRows_append_last (w a : String) :
    ∀ (l : List Sample) (t : ℤ) (d : Sample),
    buildRows w a t (l ++ [d]) =
      buildRows w a t l ++ [⟨w, a, t - intervalSum l, d.temperature⟩]
  | [], t, d => by simp [buildRows, intervalSum]
  | e :: l, t, d => by
      have ih := buildRows_append_last w a l (t - (e.interval : ℤ)) d
      simp only [List.cons_append, buildRows, List.append_eq, ih,
        intervalSum_cons, sub_sub]

theorem buildRows_reverse_getElem? (w a : String) :
    ∀ (buf : List Sample) (T : ℤ) (k : ℕ),
    ((buildRows w a T buf.reverse).reverse)[k]? =
      buf[k]?.map fun d =>
        (⟨w, a, T - intervalSum (buf.drop (k + 1)), d.temperature⟩ : CsvRow)
  | [], T, k => by simp [buildRows]
  | d :: rest, T, k => by
      rw [List.reverse_cons, buildRows_append_last w a, List.reverse_append]
      cases k with
      | zero =>
          simp [intervalSum_reverse]
      | succ k =>
          simp only [List.reverse_cons, List.reverse_nil, List.nil_append,
            List.cons_append, List.getElem?_cons_succ, List.drop_succ_cons]
          exact buildRows_reverse_getElem? w a rest T k

theorem notification_handler_not_EN (s : ReaderState) (now : ℤ)
    (data : List ℕ) (h : startsWithEN data = false) :
    notification_handler s now data =
      { s with data_buffer := s.data_buffer ++ frame_samples data } := by
  simp only [notification_handler, frame_samples, h, Bool.false_eq_true,
    if_false]
  split
  · rfl
  · cases s
    simp

theorem foldl_handler_no_EN :
    ∀ (events : List (ℤ × List ℕ)) (s : ReaderState),
    (∀ e ∈ events, startsWithEN e.2 = false) →
    events.foldl (fun st e => notification_handler st e.1 e.2) s =
      { s with data_buffer :=
          s.data_buffer ++ (events.map fun e => frame_samples e.2).flatten }
  | [], s, _ => by cases s; simp
  | e :: evs, s, h => by
      have he : startsWithEN e.2 = false := h e (by simp)
      have ih := foldl_handler_no_EN evs
        { s with data_buffer := s.data_buffer ++ frame_samples e.2 }
        (fun x hx => h x (by simp [hx]))
      simp only [List.foldl_cons, notification_handler_not_EN s e.1 e.2 he, ih,
        List.map_cons, List.flatten_cons, List.append_assoc]

theorem parsePairs_length : ∀ data : List ℕ,
    (parsePairs data).length = data.length / 2
  | [] => rfl
  | [_] => by simp [parsePairs]
  | _ :: _ :: rest => by
      have ih := parsePairs_length rest
      simp only [parsePairs, List.length_cons, ih]
      omega

theorem parsePairs_getElem? : ∀ (data : List ℕ) (k : ℕ),
    (parsePairs data)[k]? =
      match data[2 * k]?, data[2 * k + 1]? with
      | some a, some b => some ⟨a, calculate_temperature b, b⟩
      | _, _ => none
  | [], k => by simp [parsePairs]
  | [x], 0 => rfl
  | [x], k + 1 => by
      have h1 : [x][2 * (k + 1)]? = none := by
        rw [List.getElem?_eq_none]
        simp only [List.length_singleton]
        omega
      simp [parsePairs, h1]
  | i :: t :: rest, 0 => by simp [parsePairs]
  | i :: t :: rest, k + 1 => by
      have ih := parsePairs_getElem? rest k
      have e1 : (i :: t :: rest)[2 * (k + 1)]? = rest[2 * k]? := by
        rw [show 2 * (k + 1) = 2 * k + 1 + 1 by ring]
        simp
      have e2 : (i :: t :: rest)[2 * (k + 1) + 1]? = rest[2 * k + 1]? := by
        rw [show 2 * (k + 1) + 1 = 2 * k + 1 + 1 + 1 by ring]
        simp
      simp only [parsePairs, List.getElem?_cons_succ, e1, e2, ih]

/-! ### Claims -/

/-- C4: for every input byte `b` in 0..255, `calculate_temperature`
returns exactly `b * 0.0625 + 25.0`, and the result lies in
`[25.0, 40.9375]`. -/
theorem calculate_temperature_spec (b : ℕ) (hb : b ≤ 255) :
    calculate_temperature b = (b : ℚ) * 0.0625 + 25.0 ∧
      25.0 ≤ calculate_temperature b ∧ calculate_temperature b ≤ 40.9375 := by
  have hval : calculate_temperature b = (b : ℚ) * 0.0625 + 25.0 := by
    simp [calculate_temperature, CELSIUS_PER_LSB, BASE_TEMPERATURE,
      Int.natCast_nonneg]
  refine ⟨hval, ?_, ?_⟩
  · rw [hval]
    have : (0 : ℚ) ≤ (b : ℚ) * 0.0625 := by positivity
    linarith
  · rw [hval]
    have hb' : (b : ℚ) ≤ 255 := by exact_mod_cast hb
    nlinarith

/-- Witness for C4 at `b = 255`. -/
theorem calculate_temperature_spec_witness :
    calculate_temperature 255 = (255 : ℚ) * 0.0625 + 25.0 ∧
      25.0 ≤ calculate_temperature 255 ∧ calculate_temperature 255 ≤ 40.9375 :=
  calculate_temperature_spec 255 (by decide)

/-- C9: the codec is total over signed byte inputs: for every integer in
-256..-1, `calculate_temperature` agrees with its value at the input
plus 256, so a signed 8-bit representation needs no pre-normalization. -/
theorem calculate_temperature_signed (b : ℤ) (h1 : -256 ≤ b) (h2 : b ≤ -1) :
    calculate_temperature b = calculate_temperature (b + 256) := by
  have hneg : ¬ b ≥ 0 := by omega
  have hpos : b + 256 ≥ 0 := by omega
  simp [calculate_temperature, hneg, hpos]

/-- Witness for C9 at `b = -128`. -/
theorem calculate_temperature_signed_witness :
    calculate_temperature (-128) = calculate_temperature (-128 + 256) :=
  calculate_temperature_signed (-128) (by decide) (by decide)

/-- C2: every frame whose first two bytes are `E` (0x45) and `N` (0x4E)
is classified as completion regardless of length or trailing bytes: no
samples are appended, the completion flag is set, and the current time is
recorded as the completion timestamp. -/
theorem notification_handler_completion (s : ReaderState) (now : ℤ)
    (rest : List ℕ) :
    notification_handler s now (69 :: 78 :: rest) =
      { s with measurement_complete := true,
               data_acquisition_time := some now } := by
  simp [notification_handler, startsWithEN]

/-- C7: an empty frame, or an odd-length frame not starting with `E`,`N`,
leaves the reader state unchanged: no samples appended, completion state
untouched, no error. -/
theorem notification_handler_ignored (s : ReaderState) (now : ℤ)
    (data : List ℕ)
    (h : data = [] ∨ (data.length % 2 = 1 ∧ startsWithEN data = false)) :
    notification_handler s now data = s := by
  rcases h with h | ⟨hodd, hen⟩
  · subst h
    simp [notification_handler, startsWithEN]
  · simp only [notification_handler, hen, Bool.false_eq_true, if_false]
    rw [if_neg]
    omega

/-- Witness for C7 at a concrete odd-length frame and the empty frame. -/
theorem notification_handler_ignored_witness :
    notification_handler initState 0 [1, 2, 3] = initState :=
  notification_handler_ignored initState 0 [1, 2, 3] (by simp [startsWithEN])

/-- C3: a non-empty even-length frame not starting with `E`,`N` appends
exactly `length / 2` samples in pair order: the sample for pair `k` has
interval `data[2k]` and temperature `calculate_temperature data[2k+1]`
(with `data[2k+1]` kept as the raw byte). -/
theorem notification_handler_samples (s : ReaderState) (now : ℤ)
    (data : List ℕ) (hne : data ≠ []) (heven : data.length % 2 = 0)
    (hen : startsWithEN data = false) :
    notification_handler s now data =
        { s with data_buffer := s.data_buffer ++ parsePairs data } ∧
      (parsePairs data).length = data.length / 2 ∧
      ∀ (k a b : ℕ), data[2 * k]? = some a → data[2 * k + 1]? = some b →
        (parsePairs data)[k]? = some ⟨a, calculate_temperature b, b⟩ := by
  refine ⟨?_, parsePairs_length data, ?_⟩
  · have hlen : 2 ≤ data.length := by
      cases data with
      | nil => exact absurd rfl hne
      | cons x rest => simp only [List.length_cons] at heven ⊢; omega
    simp [notification_handler, hen, hlen, heven]
  · intro k a b ha hb
    rw [parsePairs_getElem? data k, ha, hb]

/-- Witness for C3 on the concrete frame `[0x05, 0x28, 0x0A, 0x30]` from
the spec's end-to-end scenario. -/
theorem notification_handler_samples_witness :
    notification_handler initState 0 [5, 40, 10, 48] =
        { initState with
            data_buffer := initState.data_buffer ++ parsePairs [5, 40, 10, 48] } ∧
      (parsePairs [5, 40, 10, 48]).length = 2 ∧
      ∀ (k a b : ℕ), [5, 40, 10, 48][2 * k]? = some a →
        [5, 40, 10, 48][2 * k + 1]? = some b →
        (parsePairs [5, 40, 10, 48])[k]? =
          some ⟨a, calculate_temperature b, b⟩ :=
  notification_handler_samples initState 0 [5, 40, 10, 48]
    (by decide) (by decide) (by decide)

/-- C1: with completion timestamp `T` and an oldest-first buffer, the
reconstruction has one row per sample in chronological order, and row `k`
carries timestamp `T` minus the sum of the intervals of all samples after
`k` (so the last row carries `T` itself) together with sample `k`'s
temperature. -/
theorem generate_csv_data_timestamps (w a : String) (mc : Bool) (T : ℤ)
    (buf : List Sample) (k : ℕ) (hk : k < buf.length) :
    (generate_csv_data w a ⟨buf, mc, some T⟩).length = buf.length ∧
    (generate_csv_data w a ⟨buf, mc, some T⟩)[k]? =
      some ⟨w, a, T - intervalSum (buf.drop (k + 1)), buf[k].temperature⟩ := by
  have hne : buf ≠ [] := by
    intro h
    subst h
    simp at hk
  have hgen : generate_csv_data w a ⟨buf, mc, some T⟩ =
      (buildRows w a T buf.reverse).reverse := by
    simp [generate_csv_data, hne]
  constructor
  · rw [hgen, List.length_reverse, buildRows_length, List.length_reverse]
  · rw [hgen, buildRows_reverse_getElem?, List.getElem?_eq_getElem hk]
    rfl

/-- Witness for C1 on a concrete three-sample buffer with intervals
`i1 = 5`, `i2 = 10`, `i3 = 7` and `T = 1000`: the oldest row is stamped
`T - i2 - i3 = 983`. -/
theorem generate_csv_data_timestamps_witness :
    (generate_csv_data "test" "addr" ⟨demoBuf, false, some 1000⟩).length = 3 ∧
    (generate_csv_data "test" "addr" ⟨demoBuf, false, some 1000⟩)[0]? =
      some ⟨"test", "addr", 983, 27.5⟩ := by
  have h := generate_csv_data_timestamps "test" "addr" false 1000 demoBuf 0
    (by decide)
  refine ⟨h.1, ?_⟩
  rw [h.2]
  norm_num [demoBuf, intervalSum]

/-- C8: reconstruction on an empty buffer, or with no completion
timestamp recorded, returns the empty sequence. -/
theorem generate_csv_data_empty (w a : String) (s : ReaderState)
    (h : s.data_buffer = [] ∨ s.data_acquisition_time = none) :
    generate_csv_data w a s = [] := by
  obtain ⟨buf, mc, t⟩ := s
  rcases h with h | h <;> simp only at h <;> subst h
  · cases t <;> simp [generate_csv_data]
  · rfl

/-- Witness for C8 at the initial reader state. -/
theorem generate_csv_data_empty_witness :
    generate_csv_data "test" "addr" initState = [] :=
  generate_csv_data_empty "test" "addr" initState (Or.inl rfl)

/-- C10: the reconstruction never reads the interval of the oldest
sample — two non-empty buffers identical except for the first sample's
interval yield identical record sequences, for every completion
timestamp. -/
theorem generate_csv_data_first_interval_irrelevant (w a : String)
    (mc mc' : Bool) (t : Option ℤ) (d : Sample) (x y : ℕ)
    (rest : List Sample) :
    generate_csv_data w a ⟨{ d with interval := x } :: rest, mc, t⟩ =
      generate_csv_data w a ⟨{ d with interval := y } :: rest, mc', t⟩ := by
  cases t with
  | none => rfl
  | some T =>
      simp only [generate_csv_data, List.cons_ne_nil, if_false,
        List.reverse_cons, buildRows_append_last]

/-- C5: if no completion frame arrives before the timeout, the session
ends with the `timedOut` outcome (no error), `stop_notify` runs, and the
returned buffer is exactly the concatenation, in arrival order, of the
samples decoded from each frame received before the timeout. -/
theorem get_temperature_data_timeout (events : List (ℤ × List ℕ))
    (h : ∀ e ∈ events, startsWithEN e.2 = false) :
    get_temperature_data events =
      { buffer := (events.map fun e => frame_samples e.2).flatten,
        completion_time := none,
        outcome := .timedOut,
        unsubscribed := true } := by
  unfold get_temperature_data
  rw [foldl_handler_no_EN events initState h]
  rfl

/-- Witness for C5: two data frames and one malformed frame, no
completion frame. -/
theorem get_temperature_data_timeout_witness :
    get_temperature_data [(0, [5, 40]), (3, [1, 2, 3]), (7, [10, 48])] =
      { buffer := ([(0, [5, 40]), (3, [1, 2, 3]), (7, [10, 48])].map
            fun e => frame_samples e.2).flatten,
        completion_time := none,
        outcome := .timedOut,
        unsubscribed := true } :=
  get_temperature_data_timeout [(0, [5, 40]), (3, [1, 2, 3]), (7, [10, 48])]
    (by decide)

/-- C6 counterexample: when the command write raises a transport error,
`stop_notify` is never reached (halshare_reader.py:114 raises before
halshare_reader.py:145), so notification unsubscription is attempted zero
times on that exit path, refuting "unsubscription and disconnect are each
attempted exactly once on every exit path". -/
theorem main_teardown_claim_false :
    ¬ ((main_actions Fault.writeError).count SessionAction.stopNotify = 1 ∧
       (main_actions Fault.writeError).count SessionAction.disconnect = 1) := by
  decide

/-- C6 (amended): on every exit path `disconnect` is attempted exactly
once (via `main`'s `finally`); notification unsubscription is attempted
exactly once on the completion and timeout paths, and zero times on the
transport-error paths (subscription, command write, or wait loop). -/
theorem main_teardown (f : Fault) :
    (main_actions f).count SessionAction.disconnect = 1 ∧
    ((f = Fault.completed ∨ f = Fault.timedOut) →
      (main_actions f).count SessionAction.stopNotify = 1) ∧
    ((f = Fault.subscribeError ∨ f = Fault.writeError ∨
        f = Fault.waitLoopError) →
      (main_actions f).count SessionAction.stopNotify = 0) := by
  cases f <;> exact ⟨by decide, by decide, by decide⟩

/-- Witness for the amended C6 on the timeout and write-error paths. -/
theorem main_teardown_witness :
    (main_actions Fault.timedOut).count SessionAction.disconnect = 1 ∧
    (main_actions Fault.timedOut).count SessionAction.stopNotify = 1 ∧
    (main_actions Fault.writeError).count SessionAction.stopNotify = 0 :=
  ⟨(main_teardown Fault.timedOut).1,
   (main_teardown Fault.timedOut).2.1 (Or.inr rfl),
   (main_teardown Fault.writeError).2.2 (Or.inr (Or.inl rfl))⟩
